import Mathlib

/-!
Shallow embedding of the APort Python SDK client
(src/sdk/python/src/aporthq_sdk_python/client.py, decision_types.py) and the
FastAPI middleware (src/middleware/fastapi/src/aporthq_middleware_fastapi/middleware.py).

Python values that can appear in a parsed JSON body, in request state, or in
error payloads are modelled by the inductive type JVal; Python dictionaries by
association lists (first occurrence wins on lookup, matching the unique-key
dictionaries produced by json.loads and by the dict operations used in the
source). Python None is modelled by Option.none where a variable can be None,
and by JVal.null where a JSON null value is stored inside a structure.
-/

namespace Aport

/-- A JSON / Python value as produced by json.loads: null, bool, int, string,
list, or dict (association list of string keys). Floats do not occur in any
code path modelled here and are omitted. -/
inductive JVal where
  | null : JVal
  | b (x : Bool) : JVal
  | i (n : Int) : JVal
  | s (str : String) : JVal
  | arr (xs : List JVal) : JVal
  | obj (d : List (String × JVal)) : JVal

/-- A Python dict with string keys, as an association list. -/
abbrev JDict := List (String × JVal)

/-- Python dict lookup d.get(k): first binding wins (Python dicts have unique
keys; every list built by the modelled operations is read through jget, so
first-occurrence semantics is the dict semantics). -/
def jget (d : JDict) (k : String) : Option JVal :=
  match d with
  | [] => none
  | (k', v) :: rest => if k' = k then some v else jget rest k

/-- Python dict assignment d[k] = v: replaces the binding in place when the
key is present (dicts keep insertion order), otherwise appends it. -/
def dinsert (d : JDict) (k : String) (v : JVal) : JDict :=
  match d with
  | [] => [(k, v)]
  | (k', w) :: rest => if k' = k then (k, v) :: rest else (k', w) :: dinsert rest k v

/-- Python truthiness of a JSON value: None, False, 0, "", [], and \x7b\x7d are
falsy, everything else truthy. -/
def truthy : JVal → Bool
  | .null => false
  | .b x => x
  | .i n => n != 0
  | .s str => str != ""
  | .arr xs => !xs.isEmpty
  | .obj d => !d.isEmpty

/-- Truthiness of a Python variable that may be None (Option.none) or hold a
JSON value. -/
def pyTruthy : Option JVal → Bool
  | none => false
  | some v => truthy v

/-- Truthiness of an optional Python dict (None or a dict; an empty dict is
falsy). -/
def dictTruthy : Option JDict → Bool
  | none => false
  | some d => !d.isEmpty

/-- Truthiness of an optional Python string (None and "" are falsy). -/
def strTruthy : Option String → Bool
  | none => false
  | some s => s != ""

/-- A Python variable that may be None, as the JSON value it denotes when
stored into a dict (None becomes null). -/
def optToJVal : Option JVal → JVal
  | none => .null
  | some v => v

/-- Python dict merge \x7b**a, **b\x7d: keys of a in order, values overridden
by b where b also binds the key, followed by the bindings of b whose keys are
absent from a. -/
def dmerge (a b : JDict) : JDict :=
  a.map (fun kv => match jget b kv.1 with
    | some v => (kv.1, v)
    | none => kv)
  ++ b.filter (fun kv => (jget a kv.1).isNone)

/-- The context comprehension of middleware.py (lines 250, 364, 443, 538):
all bindings of the parsed body except the "passport" and "policy" keys. -/
def dropPassportPolicy (d : JDict) : JDict :=
  d.filter (fun kv => !(kv.1 = "passport" || kv.1 = "policy"))

section DictLemmas

theorem jget_append (a b : JDict) (k : String) :
    jget (a ++ b) k = (jget a k <|> jget b k) := by
  induction a with
  | nil => simp [jget]
  | cons kv rest ih =>
    obtain ⟨k', v⟩ := kv
    by_cases h : k' = k <;> simp [jget, h, ih]

theorem jget_map_override (a b : JDict) (k : String) :
    jget (a.map (fun kv => match jget b kv.1 with
      | some v => (kv.1, v)
      | none => kv)) k
      = (jget a k).map (fun v => (jget b k).getD v) := by
  induction a with
  | nil => simp [jget]
  | cons kv rest ih =>
    obtain ⟨k', v⟩ := kv
    by_cases h : k' = k
    · subst h
      cases hb : jget b k' <;> simp [jget, hb]
    · cases hb : jget b k' <;> simp [jget, hb, h, ih]

theorem jget_filter_key (b : JDict) (q : String → Bool) (k : String) :
    jget (b.filter (fun kv => q kv.1)) k = if q k then jget b k else none := by
  induction b with
  | nil => simp [jget]
  | cons kv rest ih =>
    obtain ⟨k', v⟩ := kv
    by_cases h : k' = k
    · subst h
      by_cases hq : q k' <;> simp [jget, hq, ih]
    · by_cases hq : q k' <;> simp [jget, hq, h, ih]

/-- Key-level semantics of the Python merge \x7b**a, **b\x7d: b wins. -/
theorem jget_dmerge (a b : JDict) (k : String) :
    jget (dmerge a b) k = (jget b k <|> jget a k) := by
  unfold dmerge
  rw [jget_append, jget_map_override]
  rw [jget_filter_key b (fun k' => (jget a k').isNone) k]
  cases ha : jget a k <;> cases hb : jget b k <;> simp [ha, hb]

theorem jget_dropPassportPolicy (d : JDict) (k : String) :
    jget (dropPassportPolicy d) k
      = if k = "passport" || k = "policy" then none else jget d k := by
  unfold dropPassportPolicy
  rw [jget_filter_key d (fun k' => !(k' = "passport" || k' = "policy")) k]
  by_cases h1 : k = "passport" <;> by_cases h2 : k = "policy" <;> simp [h1, h2]

theorem jget_dinsert_self (d : JDict) (k : String) (v : JVal) :
    jget (dinsert d k v) k = some v := by
  induction d with
  | nil => simp [dinsert, jget]
  | cons kv rest ih =>
    obtain ⟨k0, w⟩ := kv
    by_cases h : k0 = k <;> simp [dinsert, jget, h, ih]

theorem jget_dinsert_ne (d : JDict) (k k' : String) (v : JVal) (h : k' ≠ k) :
    jget (dinsert d k v) k' = jget d k' := by
  induction d with
  | nil => simp [dinsert, jget, Ne.symm h]
  | cons kv rest ih =>
    obtain ⟨k0, w⟩ := kv
    by_cases hk : k0 = k
    · subst hk
      simp [dinsert, jget, Ne.symm h]
    · by_cases hk' : k0 = k'
      · subst hk'
        simp [dinsert, jget, hk, h]
      · simp [dinsert, jget, hk, hk', ih]

end DictLemmas

/-! ## Transport layer and error carrier (client.py) -/

/-- The raw bytes of an HTTP body (request or response), abstracted to what
json.loads does with them: empty bytes, bytes that fail to parse, or bytes
that parse to a JSON value. -/
inductive RawBody where
  | empty : RawBody
  | invalid : RawBody
  | val (v : JVal) : RawBody

/-- json.loads(text) if text else \x7b\x7d, with a JSONDecodeError handler
returning \x7b\x7d (middleware.py lines 109-112 and client.py lines 117-120). -/
def parseBody : RawBody → JVal
  | .empty => .obj []
  | .invalid => .obj []
  | .val v => v

/-- Modelled from the spec: errors.py is not under src/ (only its import and
its construction and catch sites are). The spec describes AportError as "a
uniform failure carrier (status + reasons + optional decision id)", so it is
modelled as a plain record of the constructor arguments used in client.py.
The raw response text is represented by its RawBody token. -/
structure AportError where
  status : Int
  reasons : Option JVal := none
  decision_id : Option JVal := none
  server_timing : Option String := none
  raw_response : Option RawBody := none

/-- Modelled from the spec: the spec requires rejections to carry a human
message; its content is unspecified, so it is modelled as a fixed text. No
claim inspects the message text. -/
def AportError.message (_ : AportError) : String :=
  "APort API error"

/-- A Python exception as seen by the middleware handlers: either an
AportError, or any other exception (AttributeError, TypeError, ...), which
the middleware maps to a 500 internal_error. -/
inductive PyExc where
  | aport (e : AportError) : PyExc
  | other : PyExc

/-- The outcome of the single underlying HTTP exchange of _make_request:
an HTTP response (status, body text, optional server-timing header), an
aiohttp ClientError, or an asyncio.TimeoutError. -/
inductive TransportOutcome where
  | response (status : Nat) (body : RawBody) (serverTiming : Option String) : TransportOutcome
  | connError (msg : String) : TransportOutcome
  | timeout : TransportOutcome

/-- The upstream HTTP status reported by the remote service, when the
exchange produced a response at all. -/
def upstreamStatus : TransportOutcome → Option Int
  | .response status _ _ => some (status : Int)
  | .connError _ => none
  | .timeout => none

/-- APortClient._make_request (client.py lines 94-144): parse the response
text (empty or unparsable text gives an empty dict), raise AportError with the
upstream status and the reasons and decision_id fields of the error payload on
a non-2xx/3xx response (response.ok is status < 400), attach the
server-timing metadata on success, and convert ClientError and TimeoutError
into AportError with synthetic reason codes NETWORK_ERROR and TIMEOUT. A
non-dict JSON payload makes the .get calls or the "_meta" assignment raise
(AttributeError / TypeError), which escapes as a non-Aport exception. -/
def make_request (t : TransportOutcome) : Except PyExc JVal :=
  match t with
  | .response status body st =>
    let json_data := parseBody body
    if status ≥ 400 then
      match json_data with
      | .obj d =>
        .error (.aport
          { status := (status : Int)
            reasons := jget d "reasons"
            decision_id := jget d "decision_id"
            server_timing := st
            raw_response := some body })
      | _ => .error .other
    else
      if strTruthy st then
        match json_data, st with
        | .obj d, some s =>
          .ok (.obj (dinsert d "_meta" (.obj [("serverTiming", .s s)])))
        | _, _ => .error .other
      else
        .ok json_data
  | .connError m =>
    .error (.aport
      { status := 0
        reasons := some (.arr [.obj [("code", .s "NETWORK_ERROR"), ("message", .s m)]]) })
  | .timeout =>
    .error (.aport
      { status := 408
        reasons := some (.arr [.obj [("code", .s "TIMEOUT"), ("message", .s "Request timeout")]]) })

/-! ## Decision response normalization (decision_types.py) -/

/-- PolicyVerificationResponse (decision_types.py lines 36-48). Python does
not enforce the field annotations, so every field holds the JSON value taken
from the payload; optional fields hold none when the key was absent (the
dataclass default None). The Python field named _meta is called meta here. -/
structure PolicyVerificationResponse where
  decision_id : JVal
  allow : JVal
  reasons : Option JVal := none
  assurance_level : Option JVal := none
  expires_in : Option JVal := none
  passport_digest : Option JVal := none
  signature : Option JVal := none
  created_at : Option JVal := none
  meta : Option JVal := none

/-- PolicyVerificationResponse.from_api_response (decision_types.py lines
50-59): unwrap the payload under the "decision" key when it is present and
not null, copy the "_meta" entry over when the payload lacks one, and build
the dataclass from the fields present in the payload. A TypeError is raised
when the top-level data is not a dict (.get fails), when the "decision" value
is a non-dict non-null value (dict() fails; the exotic Python acceptance of
an iterable of pairs is not modelled, no JSON payload used here has that
shape), or when the required decision_id or allow argument is missing. -/
def payloadOf (dd : JDict) : Except PyExc JDict :=
  match jget dd "decision" with
  | none => .ok dd
  | some .null => .ok dd
  | some (.obj p) => .ok p
  | some _ => .error .other

/-- The dataclass construction cls(**kwargs): TypeError when decision_id or
allow is missing from the payload. -/
def pvrOfPayload (payload : JDict) : Except PyExc PolicyVerificationResponse :=
  match jget payload "decision_id", jget payload "allow" with
  | some did, some al =>
    .ok
      { decision_id := did
        allow := al
        reasons := jget payload "reasons"
        assurance_level := jget payload "assurance_level"
        expires_in := jget payload "expires_in"
        passport_digest := jget payload "passport_digest"
        signature := jget payload "signature"
        created_at := jget payload "created_at"
        meta := jget payload "_meta" }
  | _, _ => .error .other

def from_api_response (data : JVal) : Except PyExc PolicyVerificationResponse :=
  match data with
  | .obj dd =>
    match payloadOf dd with
    | .error e => .error e
    | .ok payload0 =>
      pvrOfPayload
        (match jget dd "_meta", jget payload0 "_meta" with
          | some m, none => dinsert payload0 "_meta" m
          | _, _ => payload0)
  | _ => .error .other

/-- The response side shared by the three verify operations: one HTTP
exchange followed by from_api_response. -/
def handleVerifyResponse (t : TransportOutcome) : Except PyExc PolicyVerificationResponse :=
  (make_request t).bind from_api_response

/-! ## Request building (client.py) -/

/-- Python str() of a value, as used in the f-string building the request
path. Container reprs are abbreviated; no claim inspects a path built from a
container. -/
def pyStr : JVal → String
  | .null => "None"
  | .b true => "True"
  | .b false => "False"
  | .i n => toString n
  | .s str => str
  | .arr _ => "<list repr>"
  | .obj _ => "<dict repr>"

/-- The request body dict built by _build_policy_request_body: a "context"
entry, and "passport" / "policy" entries exactly when those arguments are not
None. -/
structure PolicyRequestBody where
  context : JDict
  passport : Option JVal
  policy : Option JVal

/-- APortClient._build_policy_request_body (client.py lines 146-169): copy
the caller context (None becomes an empty dict), then overwrite the
agent_id, policy_id and idempotency_key entries, each only when the
corresponding argument is not None, and attach passport and policy when
supplied. -/
def build_policy_request_body (agent_id policy_id idempotency_key : Option JVal)
    (context : Option JDict) (passport policy : Option JVal) : PolicyRequestBody :=
  let ctx := context.getD []
  let ctx := match agent_id with
    | some v => dinsert ctx "agent_id" v
    | none => ctx
  let ctx := match policy_id with
    | some v => dinsert ctx "policy_id" v
    | none => ctx
  let ctx := match idempotency_key with
    | some v => dinsert ctx "idempotency_key" v
    | none => ctx
  ⟨ctx, passport, policy⟩

/-- An HTTP request issued by the client: method, path, JSON body, and the
idempotency key forwarded to the Idempotency-Key header. -/
structure HttpRequest where
  method : String
  path : String
  body : Option PolicyRequestBody
  idempotency_key : Option JVal

/-- The request side of APortClient.verify_policy (client.py lines 171-196):
body built by _build_policy_request_body, path IN_BODY exactly when an inline
policy is supplied, else the configured policy id path. -/
def verify_policy_request (agent_id policy_id : Option JVal) (context : Option JDict)
    (idempotency_key passport policy : Option JVal) : HttpRequest :=
  { method := "POST"
    path :=
      if policy.isSome then "/api/verify/policy/IN_BODY"
      else "/api/verify/policy/" ++ pyStr (optToJVal policy_id)
    body := some (build_policy_request_body agent_id policy_id idempotency_key context passport policy)
    idempotency_key := idempotency_key }

/-- The request side of APortClient.verify_policy_with_passport (client.py
lines 199-220): the agent id is taken from the passport. -/
def verify_policy_with_passport_request (passport : JDict) (policy_id : Option JVal)
    (context : Option JDict) (idempotency_key : Option JVal) : HttpRequest :=
  { method := "POST"
    path := "/api/verify/policy/" ++ pyStr (optToJVal policy_id)
    body := some (build_policy_request_body (jget passport "agent_id") policy_id
      idempotency_key (some (context.getD [])) (some (.obj passport)) none)
    idempotency_key := idempotency_key }

/-- The request side of APortClient.verify_policy_with_policy_in_body
(client.py lines 223-250): a dict argument is treated as a passport (agent id
taken from it), anything else as the agent id; the policy id sent in the
context is the id entry of the inline pack; the path is always IN_BODY. -/
def verify_policy_with_policy_in_body_request (agent_id_or_passport : JVal)
    (policy : JDict) (context : Option JDict) (idempotency_key : Option JVal) : HttpRequest :=
  let passport : Option JVal :=
    match agent_id_or_passport with
    | .obj d => some (.obj d)
    | _ => none
  let agent_id : Option JVal :=
    match agent_id_or_passport with
    | .obj d => jget d "agent_id"
    | v => some v
  { method := "POST"
    path := "/api/verify/policy/IN_BODY"
    body := some (build_policy_request_body agent_id (jget policy "id") idempotency_key
      (some (context.getD [])) passport (some (.obj policy)))
    idempotency_key := idempotency_key }

/-! ## JWKS cache (client.py lines 306-325) -/

/-- The Jwks dataclass (decision_types.py lines 102-105): a single keys
field. Python does not validate the element type. -/
structure Jwks where
  keys : JVal

/-- Jwks(**response_data): succeeds exactly when the response is a dict whose
single key is "keys" (any other key set raises TypeError, as does a non-dict
argument). -/
def jwksFromResponse : JVal → Except PyExc Jwks
  | .obj [(k, v)] => if k = "keys" then .ok ⟨v⟩ else .error .other
  | _ => .error .other

/-- The two client attributes backing the JWKS cache. The expiry is a
timestamp in seconds (time.time()). -/
structure JwksClientState where
  jwks_cache : Option Jwks
  jwks_cache_expiry : Option Int

/-- Result of one get_jwks call: the returned keyset or the raised error, the
cache state afterwards, and whether a remote fetch was issued. -/
structure JwksResult where
  result : Except AportError Jwks
  state : JwksClientState
  fetched : Bool

/-- The AportError raised by get_jwks when the fetch path fails. -/
def jwksFetchFailed : AportError :=
  { status := 500
    reasons := some (.arr [.obj [("code", .s "JWKS_FETCH_FAILED"), ("message", .s "Failed to fetch JWKS")]]) }

/-- APortClient.get_jwks (client.py lines 306-325): return the cached keyset
when the cache and its expiry are set (and truthy: a 0.0 expiry is falsy) and
the current time is before the expiry; otherwise fetch once, store the result
with expiry = fetch time + 5 minutes, and on any failure raise
JWKS_FETCH_FAILED leaving the cache untouched. The clock is passed in: now is
the time.time() of the cache check, tFetch the time.time() after a successful
fetch. -/
def get_jwks (st : JwksClientState) (now tFetch : Int) (t : TransportOutcome) : JwksResult :=
  let fetchPath : JwksResult :=
    match (make_request t).bind jwksFromResponse with
    | .ok j => ⟨.ok j, ⟨some j, some (tFetch + 5 * 60)⟩, true⟩
    | .error _ => ⟨.error jwksFetchFailed, st, true⟩
  match st.jwks_cache, st.jwks_cache_expiry with
  | some j, some e => if e ≠ 0 ∧ now < e then ⟨.ok j, st, false⟩ else fetchPath
  | _, _ => fetchPath

/-! ## Middleware (middleware.py) -/

/-- AgentPassportMiddlewareOptions (middleware.py lines 30-51). base_url,
api_key and timeout_ms only configure the excluded HTTP transport and are
omitted. -/
structure AgentPassportMiddlewareOptions where
  fail_closed : Bool
  skip_paths : List String
  policy_id : Option String
  passport_from_body : Bool
  policy_from_body : Bool

/-- An inbound HTTP request as the middleware observes it: method, URL path,
headers, and the raw body bytes. -/
structure Request where
  method : String
  path : String
  headers : List (String × String)
  rawBody : RawBody

/-- Python str.startswith, over the character list. -/
def pyStartsWith (s p : String) : Bool :=
  p.data.isPrefixOf s.data

/-- ASCII-lowercased code points of a string, for case-insensitive header
names. -/
def headerKeyLower (s : String) : List Nat :=
  s.data.map (fun c => if 65 ≤ c.toNat && c.toNat ≤ 90 then c.toNat + 32 else c.toNat)

/-- Starlette header lookup is case-insensitive. -/
def headerGet (hs : List (String × String)) (k : String) : Option String :=
  (hs.find? (fun p => headerKeyLower p.1 == headerKeyLower k)).map (fun p => p.2)

/-- should_skip_request (middleware.py lines 142-144). -/
def should_skip_request (r : Request) (skip_paths : List String) : Bool :=
  skip_paths.any (fun p => pyStartsWith r.path p)

/-- The header fallback of extract_agent_id (middleware.py lines 99-103):
x-agent-passport-id or x-agent-id or None, under Python or-truthiness (an
empty header value falls through). -/
def headerAgentId (hs : List (String × String)) : Option JVal :=
  let h1 := headerGet hs "x-agent-passport-id"
  let h2 := headerGet hs "x-agent-id"
  if strTruthy h1 then h1.map .s
  else if strTruthy h2 then h2.map .s
  else none

/-- extract_agent_id (middleware.py lines 86-103): the provided agent id when
truthy, else the agent_id of a dict-valued body passport when truthy (only
when passport_from_body and the body is truthy; a truthy non-dict body makes
body_json.get raise AttributeError), else the header fallback. -/
def extract_agent_id (provided_agent_id : Option JVal) (r : Request) (body_json : JVal)
    (passport_from_body : Bool) : Except PyExc (Option JVal) :=
  if pyTruthy provided_agent_id then .ok provided_agent_id
  else if passport_from_body && truthy body_json then
    match body_json with
    | .obj d =>
      match jget d "passport" with
      | some (.obj p) =>
        let aid := jget p "agent_id"
        if pyTruthy aid then .ok aid else .ok (headerAgentId r.headers)
      | _ => .ok (headerAgentId r.headers)
    | _ => .error .other
  else .ok (headerAgentId r.headers)

/-- The JSON error response produced by create_error_response (middleware.py
lines 147-164), kept with its parts separate: HTTP status, error code,
message, and the additional fields merged into the payload. -/
structure ErrorResponse where
  status : Int
  error : String
  message : String
  additional : JDict

/-- create_error_response (middleware.py lines 147-164). -/
def create_error_response (status : Int) (error message : String) (additional : JDict) :
    ErrorResponse :=
  ⟨status, error, message, additional⟩

/-- The request state set by the middleware before invoking the downstream
handler: request.state.agent and request.state.policy_result, or none where
the attribute is never assigned. -/
structure ReqState where
  agent : Option JVal
  policy_result : Option JVal

/-- How a dispatch run ends: continue into the downstream handler (call_next)
with the given request state, or return a structured rejection. -/
inductive Outcome where
  | next (state : ReqState) : Outcome
  | reject (r : ErrorResponse) : Outcome

/-- One client operation invoked by the middleware, with the arguments it was
given. -/
inductive CallTag where
  | passportView (agent_id : Option JVal) : CallTag
  | verifyInBody (agent_id_or_passport : Option JVal) (policy : JDict) (context : JDict) : CallTag
  | verifyWithPassport (passport : JDict) (policy_id : Option String) (context : JDict) : CallTag
  | verifyPolicy (agent_id : Option JVal) (policy_id : Option String) (context : JDict) : CallTag

/-- The context argument of a client operation, when it has one. -/
def CallTag.contextOf : CallTag → Option JDict
  | .passportView _ => none
  | .verifyInBody _ _ c => some c
  | .verifyWithPassport _ _ c => some c
  | .verifyPolicy _ _ c => some c

/-- getattr(decision, "reasons", None) or []: a missing or falsy reasons
value becomes the empty list; a truthy one is kept. -/
def reasonsOrEmpty : Option JVal → JVal
  | none => .arr []
  | some r => if truthy r then r else .arr []

/-- _decision_allow (middleware.py lines 120-124) on the dataclass the SDK
always returns: Python bool() truthiness of the allow field. -/
def decision_allow (d : PolicyVerificationResponse) : Bool :=
  truthy d.allow

/-- _decision_meta (middleware.py lines 127-139) on the dataclass branch. -/
def decision_meta (d : PolicyVerificationResponse) : JDict :=
  [("decision_id", d.decision_id), ("reasons", reasonsOrEmpty d.reasons)]

/-- The request.state.policy_result dict built for an allowed decision
(middleware.py lines 286-290): only decision_id, allow and reasons are
carried over. -/
def policy_result_state (d : PolicyVerificationResponse) : JVal :=
  .obj [("decision_id", d.decision_id), ("allow", d.allow), ("reasons", reasonsOrEmpty d.reasons)]

/-- Whether dispatch reads the request body (middleware.py line 210). -/
def readsBody (o : AgentPassportMiddlewareOptions) (r : Request) : Bool :=
  r.method == "POST" && (strTruthy o.policy_id || o.passport_from_body || o.policy_from_body)

/-- The parsed body dispatch works with: the parse of the raw body when it is
read, else the empty dict. -/
def bodyJsonOf (o : AgentPassportMiddlewareOptions) (r : Request) : JVal :=
  if readsBody o r then parseBody r.rawBody else .obj []

/-- The conditional body_json.get(key) of middleware.py lines 215-216: only
evaluated under the flag (so a non-dict body raises AttributeError exactly
when the flag is set), and kept only when the value is a dict. -/
def bodyGetDict (flag : Bool) (body_json : JVal) (k : String) : Except PyExc (Option JDict) :=
  if flag then
    match body_json with
    | .obj d =>
      .ok (match jget d k with
        | some (.obj p) => some p
        | _ => none)
    | _ => .error .other
  else .ok none

/-- The result of the try-block body of dispatch, before the outer exception
handlers: the outcome or the escaped exception, plus the client operations
invoked. -/
structure CoreResult where
  result : Except PyExc Outcome
  calls : List CallTag

/-- The tail of the policy verification path of dispatch (middleware.py lines
272-291): inspect the decision, reject 403 policy_violation with agent id,
the configured policy id or else the body pack id, and the decision metadata
when denied; attach state and continue when allowed. -/
def decisionStep (opt_policy_id : Option String) (body_policy : Option JDict)
    (effective_agent_id : Option JVal) (tag : CallTag)
    (res : Except PyExc PolicyVerificationResponse) : CoreResult :=
  match res with
  | .error e => ⟨.error e, [tag]⟩
  | .ok d =>
    if !decision_allow d then
      let policy_id_val : JVal :=
        if strTruthy opt_policy_id then .s (opt_policy_id.getD "")
        else if dictTruthy body_policy then optToJVal (jget (body_policy.getD []) "id")
        else .null
      ⟨.ok (.reject (create_error_response 403 "policy_violation" "Policy violation"
        (dmerge [("agent_id", optToJVal effective_agent_id), ("policy_id", policy_id_val)]
          (decision_meta d)))), [tag]⟩
    else
      ⟨.ok (.next ⟨some (.obj [("agent_id", optToJVal effective_agent_id)]),
        some (policy_result_state d)⟩), [tag]⟩

/-- The try-block of AgentPassportMiddleware.dispatch (middleware.py lines
205-291). The transport outcome t stands for the single HTTP exchange the
run performs, if any. -/
def dispatchCore (o : AgentPassportMiddlewareOptions) (r : Request) (t : TransportOutcome) :
    CoreResult :=
  if should_skip_request r o.skip_paths then ⟨.ok (.next ⟨none, none⟩), []⟩
  else
    match bodyGetDict o.passport_from_body (bodyJsonOf o r) "passport" with
    | .error e => ⟨.error e, []⟩
    | .ok body_passport =>
    match bodyGetDict o.policy_from_body (bodyJsonOf o r) "policy" with
    | .error e => ⟨.error e, []⟩
    | .ok body_policy =>
    match extract_agent_id none r (bodyJsonOf o r) o.passport_from_body with
    | .error e => ⟨.error e, []⟩
    | .ok agent_id =>
    if !pyTruthy agent_id && !dictTruthy body_passport then
      if o.fail_closed then
        ⟨.ok (.reject (create_error_response 401 "missing_agent_id"
          "Agent ID is required. Provide X-Agent-Passport-Id header or body.passport." [])), []⟩
      else ⟨.ok (.next ⟨none, none⟩), []⟩
    else
      let effective_agent_id : Option JVal :=
        if pyTruthy agent_id then agent_id
        else if dictTruthy body_passport then jget (body_passport.getD []) "agent_id"
        else none
      if !strTruthy o.policy_id && !dictTruthy body_policy then
        if dictTruthy body_passport then
          let bp := body_passport.getD []
          ⟨.ok (.next ⟨some (.obj (dmerge [("agent_id", optToJVal (jget bp "agent_id"))] bp)),
            none⟩), []⟩
        else
          let tag := CallTag.passportView effective_agent_id
          match make_request t with
          | .ok (.obj pv) =>
            ⟨.ok (.next ⟨some (.obj (dmerge [("agent_id", optToJVal effective_agent_id)] pv)),
              none⟩), [tag]⟩
          | .ok _ => ⟨.error .other, [tag]⟩
          | .error (.aport e) =>
            ⟨.ok (.reject (create_error_response e.status "agent_verification_failed" e.message
              [("agent_id", optToJVal effective_agent_id)])), [tag]⟩
          | .error .other => ⟨.error .other, [tag]⟩
      else
        match bodyJsonOf o r with
        | .obj bd =>
          let context := dropPassportPolicy bd
          if dictTruthy body_policy then
            let bpol := body_policy.getD []
            let arg : Option JVal :=
              if dictTruthy body_passport then some (.obj (body_passport.getD []))
              else effective_agent_id
            decisionStep o.policy_id body_policy effective_agent_id
              (.verifyInBody arg bpol context) (handleVerifyResponse t)
          else if dictTruthy body_passport then
            decisionStep o.policy_id body_policy effective_agent_id
              (.verifyWithPassport (body_passport.getD []) o.policy_id context)
              (handleVerifyResponse t)
          else
            decisionStep o.policy_id body_policy effective_agent_id
              (.verifyPolicy effective_agent_id o.policy_id context)
              (handleVerifyResponse t)
        | _ => ⟨.error .other, []⟩

/-- What the middleware run did: how many times the request body was read,
and which client operations were invoked. -/
structure Trace where
  bodyReads : Nat
  calls : List CallTag

/-- The except-Exception rejection (middleware.py lines 300-302). -/
def internal_error_response : ErrorResponse :=
  create_error_response 500 "internal_error" "Internal server error" []

/-- The except-AportError rejection (middleware.py lines 293-299). -/
def api_error_response (e : AportError) : ErrorResponse :=
  create_error_response e.status "api_error" e.message [("reasons", optToJVal e.reasons)]

/-- AgentPassportMiddleware.dispatch (middleware.py lines 203-302): the
try-block outcome with the two outer exception handlers applied, together
with the run trace. agent_passport_middleware (lines 305-417) repeats this
algorithm verbatim and is covered by the same model. -/
def dispatch (o : AgentPassportMiddlewareOptions) (r : Request) (t : TransportOutcome) :
    Outcome × Trace :=
  let core := dispatchCore o r t
  let reads := if !should_skip_request r o.skip_paths && readsBody o r then 1 else 0
  (match core.result with
    | .ok out => out
    | .error (.aport e) => .reject (api_error_response e)
    | .error .other => .reject internal_error_response,
   ⟨reads, core.calls⟩)

/-- The decision tail of require_policy_with_context (middleware.py lines
560-579): the 403 additional fields use the policy_id parameter directly. -/
def rpwcDecision (policy_id : String) (effective_agent_id : Option JVal) (tag : CallTag)
    (res : Except PyExc PolicyVerificationResponse) : CoreResult :=
  match res with
  | .error e => ⟨.error e, [tag]⟩
  | .ok d =>
    if !decision_allow d then
      ⟨.ok (.reject (create_error_response 403 "policy_violation" "Policy violation"
        (dmerge [("agent_id", optToJVal effective_agent_id), ("policy_id", .s policy_id)]
          (decision_meta d)))), [tag]⟩
    else
      ⟨.ok (.next ⟨some (.obj [("agent_id", optToJVal effective_agent_id)]),
        some (policy_result_state d)⟩), [tag]⟩

/-- The try-block of the middleware returned by require_policy_with_context
(middleware.py lines 521-579): body read for every POST, body passport and
policy honored unconditionally, provided agent_id parameter, no fail-open,
and the caller context merged over the request context (line 539). -/
def require_policy_with_context_core (policy_id : String) (context : JDict)
    (agent_id : Option String) (r : Request) (t : TransportOutcome) : CoreResult :=
  let body_json := if r.method == "POST" then parseBody r.rawBody else .obj []
  match bodyGetDict true body_json "passport" with
  | .error e => ⟨.error e, []⟩
  | .ok body_passport =>
  match bodyGetDict true body_json "policy" with
  | .error e => ⟨.error e, []⟩
  | .ok body_policy =>
  match extract_agent_id (agent_id.map .s) r body_json true with
  | .error e => ⟨.error e, []⟩
  | .ok extracted_agent_id =>
  if !pyTruthy extracted_agent_id && !dictTruthy body_passport then
    ⟨.ok (.reject (create_error_response 401 "missing_agent_id"
      "Agent ID is required. Provide X-Agent-Passport-Id header, function parameter, or body.passport."
      [])), []⟩
  else
    let effective_agent_id : Option JVal :=
      if pyTruthy extracted_agent_id then extracted_agent_id
      else if dictTruthy body_passport then jget (body_passport.getD []) "agent_id"
      else none
    match body_json with
    | .obj bd =>
      let request_context := dropPassportPolicy bd
      let merged_context := dmerge request_context context
      if dictTruthy body_policy then
        let bpol := body_policy.getD []
        let arg : Option JVal :=
          if dictTruthy body_passport then some (.obj (body_passport.getD []))
          else effective_agent_id
        rpwcDecision policy_id effective_agent_id
          (.verifyInBody arg bpol merged_context) (handleVerifyResponse t)
      else if dictTruthy body_passport then
        rpwcDecision policy_id effective_agent_id
          (.verifyWithPassport (body_passport.getD []) (some policy_id) merged_context)
          (handleVerifyResponse t)
      else
        rpwcDecision policy_id effective_agent_id
          (.verifyPolicy effective_agent_id (some policy_id) merged_context)
          (handleVerifyResponse t)
    | _ => ⟨.error .other, []⟩

/-- require_policy_with_context (middleware.py lines 513-592): try-block with
the two outer exception handlers, plus the run trace. -/
def require_policy_with_context (policy_id : String) (context : JDict)
    (agent_id : Option String) (r : Request) (t : TransportOutcome) : Outcome × Trace :=
  let core := require_policy_with_context_core policy_id context agent_id r t
  let reads := if r.method == "POST" then 1 else 0
  (match core.result with
    | .ok out => out
    | .error (.aport e) => .reject (api_error_response e)
    | .error .other => .reject internal_error_response,
   ⟨reads, core.calls⟩)

/-! ## Value-level descriptions of the resolution steps (for the theorems) -/

/-- The value bodyGetDict yields on a dict body (where it cannot raise). -/
def bodyDictVal (flag : Bool) (bd : JDict) (k : String) : Option JDict :=
  if flag then
    match jget bd k with
    | some (.obj p) => some p
    | _ => none
  else none

/-- The value extract_agent_id yields on a dict body (where it cannot
raise). -/
def extract_agent_id_val (provided_agent_id : Option JVal) (r : Request) (bd : JDict)
    (passport_from_body : Bool) : Option JVal :=
  if pyTruthy provided_agent_id then provided_agent_id
  else if passport_from_body && truthy (.obj bd) then
    match jget bd "passport" with
    | some (.obj p) =>
      let aid := jget p "agent_id"
      if pyTruthy aid then aid else headerAgentId r.headers
    | _ => headerAgentId r.headers
  else headerAgentId r.headers

/-- effective_agent_id (middleware.py line 232). -/
def effAgentOf (agent_id : Option JVal) (body_passport : Option JDict) : Option JVal :=
  if pyTruthy agent_id then agent_id
  else if dictTruthy body_passport then jget (body_passport.getD []) "agent_id"
  else none

theorem bodyGetDict_obj (flag : Bool) (bd : JDict) (k : String) :
    bodyGetDict flag (.obj bd) k = .ok (bodyDictVal flag bd k) := by
  unfold bodyGetDict bodyDictVal
  by_cases h : flag <;> simp [h]

theorem extract_agent_id_obj (p : Option JVal) (r : Request) (bd : JDict) (pfb : Bool) :
    extract_agent_id p r (.obj bd) pfb = .ok (extract_agent_id_val p r bd pfb) := by
  unfold extract_agent_id extract_agent_id_val
  by_cases h1 : pyTruthy p
  · simp [h1]
  · rw [Bool.not_eq_true] at h1
    by_cases h2 : (pfb && truthy (.obj bd)) = true
    · simp only [h1, Bool.false_eq_true, if_false, h2, if_true]
      cases hg : jget bd "passport" with
      | none => rfl
      | some v => cases v <;> first | rfl | (split <;> first | rfl | (split <;> rfl))
    · rw [Bool.not_eq_true] at h2
      simp [h1, h2]

/-- The client operation the policy verification path selects, with its
arguments (middleware.py lines 252-270). -/
def verifyTagOf (policy_id : Option String) (body_passport body_policy : Option JDict)
    (eff : Option JVal) (ctx : JDict) : CallTag :=
  if dictTruthy body_policy then
    .verifyInBody (if dictTruthy body_passport then some (.obj (body_passport.getD [])) else eff)
      (body_policy.getD []) ctx
  else if dictTruthy body_passport then
    .verifyWithPassport (body_passport.getD []) policy_id ctx
  else
    .verifyPolicy eff policy_id ctx

theorem decisionStep_calls (pid : Option String) (bpol : Option JDict) (eff : Option JVal)
    (tag : CallTag) (res : Except PyExc PolicyVerificationResponse) :
    (decisionStep pid bpol eff tag res).calls = [tag] := by
  cases res with
  | error e => rfl
  | ok d =>
    unfold decisionStep
    by_cases h : decision_allow d <;> simp [h]

theorem rpwcDecision_calls (pid : String) (eff : Option JVal) (tag : CallTag)
    (res : Except PyExc PolicyVerificationResponse) :
    (rpwcDecision pid eff tag res).calls = [tag] := by
  cases res with
  | error e => rfl
  | ok d =>
    unfold rpwcDecision
    by_cases h : decision_allow d <;> simp [h]

/-- Navigation lemma: under the conditions that put dispatch on the policy
verification path (not skipped, dict body, identity gate passed, a policy
reference resolved), the try-block reduces to the decision step on the
selected operation. -/
theorem dispatchCore_verify_path (o : AgentPassportMiddlewareOptions) (r : Request)
    (t : TransportOutcome) (bd : JDict)
    (hsk : should_skip_request r o.skip_paths = false)
    (hobj : bodyJsonOf o r = .obj bd)
    (hgate : (!pyTruthy (extract_agent_id_val none r bd o.passport_from_body)
      && !dictTruthy (bodyDictVal o.passport_from_body bd "passport")) = false)
    (hpol : (!strTruthy o.policy_id
      && !dictTruthy (bodyDictVal o.policy_from_body bd "policy")) = false) :
    dispatchCore o r t
      = decisionStep o.policy_id (bodyDictVal o.policy_from_body bd "policy")
          (effAgentOf (extract_agent_id_val none r bd o.passport_from_body)
            (bodyDictVal o.passport_from_body bd "passport"))
          (verifyTagOf o.policy_id (bodyDictVal o.passport_from_body bd "passport")
            (bodyDictVal o.policy_from_body bd "policy")
            (effAgentOf (extract_agent_id_val none r bd o.passport_from_body)
              (bodyDictVal o.passport_from_body bd "passport"))
            (dropPassportPolicy bd))
          (handleVerifyResponse t) := by
  unfold dispatchCore
  rw [hobj]
  simp only [hsk, Bool.false_eq_true, if_false, bodyGetDict_obj, extract_agent_id_obj,
    hgate, hpol, effAgentOf, verifyTagOf]
  by_cases h1 : dictTruthy (bodyDictVal o.policy_from_body bd "policy")
  · simp [h1]
  · rw [Bool.not_eq_true] at h1
    by_cases h2 : dictTruthy (bodyDictVal o.passport_from_body bd "passport")
    · simp [h1, h2]
    · rw [Bool.not_eq_true] at h2
      simp [h1, h2]

/-- Navigation lemma for require_policy_with_context: with a dict body and
the identity gate passed, the try-block reduces to the decision step on the
selected operation with the merged context. -/
theorem rpwcCore_verify_path (policy_id : String) (context : JDict)
    (agent_id : Option String) (r : Request) (t : TransportOutcome) (bd : JDict)
    (hobj : (if r.method == "POST" then parseBody r.rawBody else .obj []) = .obj bd)
    (hgate : (!pyTruthy (extract_agent_id_val (agent_id.map .s) r bd true)
      && !dictTruthy (bodyDictVal true bd "passport")) = false) :
    require_policy_with_context_core policy_id context agent_id r t
      = rpwcDecision policy_id
          (effAgentOf (extract_agent_id_val (agent_id.map .s) r bd true)
            (bodyDictVal true bd "passport"))
          (verifyTagOf (some policy_id) (bodyDictVal true bd "passport")
            (bodyDictVal true bd "policy")
            (effAgentOf (extract_agent_id_val (agent_id.map .s) r bd true)
              (bodyDictVal true bd "passport"))
            (dmerge (dropPassportPolicy bd) context))
          (handleVerifyResponse t) := by
  unfold require_policy_with_context_core
  rw [hobj]
  simp only [bodyGetDict_obj, extract_agent_id_obj, hgate, Bool.false_eq_true, if_false,
    effAgentOf, verifyTagOf]
  by_cases h1 : dictTruthy (bodyDictVal true bd "policy")
  · simp [h1]
  · rw [Bool.not_eq_true] at h1
    by_cases h2 : dictTruthy (bodyDictVal true bd "passport")
    · simp [h1, h2]
    · rw [Bool.not_eq_true] at h2
      simp [h1, h2]

/-- The cache-hit condition of get_jwks (client.py lines 309-313): cache and
expiry set, expiry truthy, and the current time before the expiry. -/
def jwksCacheValid (st : JwksClientState) (now : Int) : Bool :=
  match st.jwks_cache, st.jwks_cache_expiry with
  | some _, some e => decide (e ≠ 0) && decide (now < e)
  | _, _ => false

/-! ## Claim theorems -/

/-- C6: every transport-level failure of a remote call is converted into a
decision-resolution failure (an AportError) with a synthetic reason code and
no decision identifier: a connection error yields NETWORK_ERROR with status
0, a timeout yields TIMEOUT with status 408, and on the policy verification
path a timeout surfaces as a 408 api_error rejection; neither failure
escapes as a non-AportError exception. -/
theorem transport_failure_contract :
    (∀ m, make_request (.connError m)
      = .error (.aport
          { status := 0
            reasons := some (.arr [.obj [("code", .s "NETWORK_ERROR"), ("message", .s m)]])
            decision_id := none }))
  ∧ (make_request .timeout
      = .error (.aport
          { status := 408
            reasons := some (.arr [.obj [("code", .s "TIMEOUT"), ("message", .s "Request timeout")]])
            decision_id := none }))
  ∧ (∀ (o : AgentPassportMiddlewareOptions) (r : Request) (bd : JDict),
      should_skip_request r o.skip_paths = false →
      bodyJsonOf o r = .obj bd →
      (!pyTruthy (extract_agent_id_val none r bd o.passport_from_body)
        && !dictTruthy (bodyDictVal o.passport_from_body bd "passport")) = false →
      (!strTruthy o.policy_id
        && !dictTruthy (bodyDictVal o.policy_from_body bd "policy")) = false →
      (dispatch o r .timeout).1
        = .reject (api_error_response
            { status := 408
              reasons := some (.arr [.obj [("code", .s "TIMEOUT"), ("message", .s "Request timeout")]]) })) := by
  refine ⟨fun m => rfl, rfl, ?_⟩
  intro o r bd hsk hobj hgate hpol
  have hcore := dispatchCore_verify_path o r .timeout bd hsk hobj hgate hpol
  have hh : handleVerifyResponse .timeout
      = .error (.aport
          { status := 408
            reasons := some (.arr [.obj [("code", .s "TIMEOUT"), ("message", .s "Request timeout")]]) }) := rfl
  simp only [dispatch, hcore, hh, decisionStep]

/-- Witness for C6: a concrete timeout on the verification path. -/
theorem transport_failure_contract_witness :
    (dispatch ⟨true, ["/health"], some "p1", true, true⟩
        ⟨"POST", "/x", [("x-agent-id", "abc")], .empty⟩ .timeout).1
      = .reject (api_error_response
          { status := 408
            reasons := some (.arr [.obj [("code", .s "TIMEOUT"), ("message", .s "Request timeout")]]) }) :=
  transport_failure_contract.2.2 ⟨true, ["/health"], some "p1", true, true⟩
    ⟨"POST", "/x", [("x-agent-id", "abc")], .empty⟩ [] rfl rfl rfl rfl

/-- C7: get_jwks returns the cached keyset without fetching when a cached
entry exists and the current time is before its (truthy) expiry; otherwise
it performs exactly one fetch, storing the result with expiry = fetch time +
5 minutes; a failed fetch leaves the cached entry and expiry unchanged and
raises JWKS_FETCH_FAILED; and two calls within the TTL window issue exactly
one fetch. -/
theorem get_jwks_cache_contract :
    (∀ (st : JwksClientState) (now tFetch : Int) (t : TransportOutcome) (j : Jwks) (e : Int),
        st.jwks_cache = some j → st.jwks_cache_expiry = some e → e ≠ 0 → now < e →
        get_jwks st now tFetch t = ⟨.ok j, st, false⟩)
  ∧ (∀ (st : JwksClientState) (now tFetch : Int) (t : TransportOutcome) (j : Jwks),
        jwksCacheValid st now = false →
        (make_request t).bind jwksFromResponse = .ok j →
        get_jwks st now tFetch t = ⟨.ok j, ⟨some j, some (tFetch + 5 * 60)⟩, true⟩)
  ∧ (∀ (st : JwksClientState) (now tFetch : Int) (t : TransportOutcome) (e : PyExc),
        jwksCacheValid st now = false →
        (make_request t).bind jwksFromResponse = .error e →
        get_jwks st now tFetch t = ⟨.error jwksFetchFailed, st, true⟩)
  ∧ (∀ (t0 t1 : Int) (t t' : TransportOutcome) (j : Jwks),
        0 ≤ t0 → t1 < t0 + 5 * 60 →
        (make_request t).bind jwksFromResponse = .ok j →
        (get_jwks ⟨none, none⟩ t0 t0 t).fetched = true
        ∧ get_jwks (get_jwks ⟨none, none⟩ t0 t0 t).state t1 t1 t'
            = ⟨.ok j, (get_jwks ⟨none, none⟩ t0 t0 t).state, false⟩) := by
  have hmiss : ∀ (st : JwksClientState) (now tFetch : Int) (t : TransportOutcome),
      jwksCacheValid st now = false →
      get_jwks st now tFetch t
        = (match (make_request t).bind jwksFromResponse with
          | .ok j => ⟨.ok j, ⟨some j, some (tFetch + 5 * 60)⟩, true⟩
          | .error _ => ⟨.error jwksFetchFailed, st, true⟩) := by
    intro st now tFetch t hvalid
    obtain ⟨c, ex⟩ := st
    cases c with
    | none => rfl
    | some jc =>
      cases ex with
      | none => rfl
      | some e =>
        simp only [jwksCacheValid] at hvalid
        have hneg : ¬(e ≠ 0 ∧ now < e) := by
          intro hcon
          simp [hcon.1, hcon.2] at hvalid
        simp only [get_jwks]
        rw [if_neg hneg]
  refine ⟨?_, ?_, ?_, ?_⟩
  · intro st now tFetch t j e h1 h2 h3 h4
    obtain ⟨c, ex⟩ := st
    simp only at h1 h2
    subst h1
    subst h2
    simp only [get_jwks]
    rw [if_pos ⟨h3, h4⟩]
  · intro st now tFetch t j hvalid hfetch
    rw [hmiss st now tFetch t hvalid, hfetch]
  · intro st now tFetch t e hvalid hfetch
    rw [hmiss st now tFetch t hvalid, hfetch]
  · intro t0 t1 t t' j h0 hlt hfetch
    have h1 : get_jwks ⟨none, none⟩ t0 t0 t = ⟨.ok j, ⟨some j, some (t0 + 5 * 60)⟩, true⟩ := by
      rw [hmiss ⟨none, none⟩ t0 t0 t rfl, hfetch]
    rw [h1]
    refine ⟨rfl, ?_⟩
    show get_jwks ⟨some j, some (t0 + 5 * 60)⟩ t1 t1 t'
      = ⟨.ok j, ⟨some j, some (t0 + 5 * 60)⟩, false⟩
    simp only [get_jwks]
    rw [if_pos ⟨by omega, by omega⟩]

/-- Witness for C7: a concrete cache hit returns the cached keyset without a
fetch. -/
theorem get_jwks_cache_contract_witness :
    get_jwks ⟨some ⟨.arr []⟩, some 300⟩ 10 0 .timeout
      = ⟨.ok ⟨.arr []⟩, ⟨some ⟨.arr []⟩, some 300⟩, false⟩ :=
  get_jwks_cache_contract.1 ⟨some ⟨.arr []⟩, some 300⟩ 10 0 .timeout ⟨.arr []⟩ 300
    rfl rfl (by decide) (by decide)

/-- C10: the wire context equals the caller-supplied context with exactly the
agent_id, policy_id and idempotency_key entries overwritten by the call's own
values (each only when not None); every other entry passes through unchanged;
the passport and policy body fields are present exactly when supplied; and
verify_policy sends exactly this body. -/
theorem build_policy_request_body_frame :
    ∀ (agent_id policy_id idempotency_key : Option JVal) (ctx : JDict)
      (passport policy : Option JVal) (b : PolicyRequestBody),
      b = build_policy_request_body agent_id policy_id idempotency_key (some ctx) passport policy →
      (∀ k, k ≠ "agent_id" → k ≠ "policy_id" → k ≠ "idempotency_key" →
        jget b.context k = jget ctx k)
      ∧ jget b.context "agent_id" = (agent_id <|> jget ctx "agent_id")
      ∧ jget b.context "policy_id" = (policy_id <|> jget ctx "policy_id")
      ∧ jget b.context "idempotency_key" = (idempotency_key <|> jget ctx "idempotency_key")
      ∧ b.passport = passport
      ∧ b.policy = policy
      ∧ (verify_policy_request agent_id policy_id (some ctx) idempotency_key passport policy).body
          = some b := by
  intro agent_id policy_id idempotency_key ctx passport policy b hb
  subst hb
  have n1 : ("policy_id" : String) ≠ "agent_id" := by decide
  have n2 : ("idempotency_key" : String) ≠ "agent_id" := by decide
  have n3 : ("agent_id" : String) ≠ "policy_id" := by decide
  have n4 : ("idempotency_key" : String) ≠ "policy_id" := by decide
  have n5 : ("agent_id" : String) ≠ "idempotency_key" := by decide
  have n6 : ("policy_id" : String) ≠ "idempotency_key" := by decide
  refine ⟨?_, ?_, ?_, ?_, ?_, ?_, ?_⟩
  · intro k h1 h2 h3
    unfold build_policy_request_body
    cases agent_id <;> cases policy_id <;> cases idempotency_key <;>
      simp [jget_dinsert_ne, h1, h2, h3]
  · unfold build_policy_request_body
    cases agent_id <;> cases policy_id <;> cases idempotency_key <;>
      simp [jget_dinsert_ne, jget_dinsert_self, n1, n2, Option.orElse]
  · unfold build_policy_request_body
    cases agent_id <;> cases policy_id <;> cases idempotency_key <;>
      simp [jget_dinsert_ne, jget_dinsert_self, n3, n4, Option.orElse]
  · unfold build_policy_request_body
    cases agent_id <;> cases policy_id <;> cases idempotency_key <;>
      simp [jget_dinsert_ne, jget_dinsert_self, n5, n6, Option.orElse]
  · cases agent_id <;> cases policy_id <;> cases idempotency_key <;> rfl
  · cases agent_id <;> cases policy_id <;> cases idempotency_key <;> rfl
  · rfl

/-- Witness for C10: a concrete context with a conflicting agent_id entry and
a pass-through entry. -/
theorem build_policy_request_body_frame_witness :
    jget (build_policy_request_body (some (.s "new")) none none
        (some [("a", .i 1), ("agent_id", .s "old")]) none none).context "a" = some (.i 1)
    ∧ jget (build_policy_request_body (some (.s "new")) none none
        (some [("a", .i 1), ("agent_id", .s "old")]) none none).context "agent_id"
      = some (.s "new") := by
  have h := build_policy_request_body_frame (some (.s "new")) none none
    [("a", .i 1), ("agent_id", .s "old")] none none _ rfl
  exact ⟨h.1 "a" (by decide) (by decide) (by decide), h.2.1⟩

/-- C2: on the policy verification path exactly one client operation is
invoked, selected by precedence: a (truthy) body policy pack selects
verify_policy_with_policy_in_body regardless of the configured policy id;
else a (truthy) body passport selects verify_policy_with_passport with the
configured policy id; else verify_policy with the resolved identity and
configured policy id. -/
theorem verify_path_selects_one_operation
    (o : AgentPassportMiddlewareOptions) (r : Request) (t : TransportOutcome) (bd : JDict)
    (hsk : should_skip_request r o.skip_paths = false)
    (hobj : bodyJsonOf o r = .obj bd)
    (hgate : (!pyTruthy (extract_agent_id_val none r bd o.passport_from_body)
      && !dictTruthy (bodyDictVal o.passport_from_body bd "passport")) = false)
    (hpol : (!strTruthy o.policy_id
      && !dictTruthy (bodyDictVal o.policy_from_body bd "policy")) = false) :
    (dispatch o r t).2.calls
      = [if dictTruthy (bodyDictVal o.policy_from_body bd "policy") then
          CallTag.verifyInBody
            (if dictTruthy (bodyDictVal o.passport_from_body bd "passport") then
              some (.obj ((bodyDictVal o.passport_from_body bd "passport").getD []))
            else
              effAgentOf (extract_agent_id_val none r bd o.passport_from_body)
                (bodyDictVal o.passport_from_body bd "passport"))
            ((bodyDictVal o.policy_from_body bd "policy").getD [])
            (dropPassportPolicy bd)
        else if dictTruthy (bodyDictVal o.passport_from_body bd "passport") then
          CallTag.verifyWithPassport ((bodyDictVal o.passport_from_body bd "passport").getD [])
            o.policy_id (dropPassportPolicy bd)
        else
          CallTag.verifyPolicy
            (effAgentOf (extract_agent_id_val none r bd o.passport_from_body)
              (bodyDictVal o.passport_from_body bd "passport"))
            o.policy_id (dropPassportPolicy bd)] := by
  have hcore := dispatchCore_verify_path o r t bd hsk hobj hgate hpol
  show (dispatchCore o r t).calls = _
  rw [hcore, decisionStep_calls]
  rfl

/-- Witness for C2: a concrete request whose body passport (and no body
policy) selects verify_policy_with_passport with the configured policy
id. -/
theorem verify_path_selects_one_operation_witness :
    (dispatch ⟨true, ["/health"], some "p1", true, true⟩
        ⟨"POST", "/x", [], .val (.obj [("passport", .obj [("agent_id", .s "x")])])⟩
        .timeout).2.calls
      = [CallTag.verifyWithPassport [("agent_id", .s "x")] (some "p1") []] :=
  verify_path_selects_one_operation ⟨true, ["/health"], some "p1", true, true⟩
    ⟨"POST", "/x", [], .val (.obj [("passport", .obj [("agent_id", .s "x")])])⟩
    .timeout [("passport", .obj [("agent_id", .s "x")])] rfl rfl rfl rfl

/-- C3 (amended): a successfully resolved denied decision is rejected 403
policy_violation with additional fields carrying the agent identity, the
applicable policy identifier (the configured policy id when set, else the
body policy pack's id), the decision identifier, and the reasons list. -/
theorem policy_violation_rejection
    (o : AgentPassportMiddlewareOptions) (r : Request) (t : TransportOutcome) (bd : JDict)
    (d : PolicyVerificationResponse) (eff polv : JVal) (additional : JDict)
    (heff : eff = optToJVal (effAgentOf (extract_agent_id_val none r bd o.passport_from_body)
      (bodyDictVal o.passport_from_body bd "passport")))
    (hpolv : polv = (if strTruthy o.policy_id then .s (o.policy_id.getD "")
      else if dictTruthy (bodyDictVal o.policy_from_body bd "policy") then
        optToJVal (jget ((bodyDictVal o.policy_from_body bd "policy").getD []) "id")
      else .null))
    (hadd : additional = dmerge [("agent_id", eff), ("policy_id", polv)] (decision_meta d))
    (hsk : should_skip_request r o.skip_paths = false)
    (hobj : bodyJsonOf o r = .obj bd)
    (hgate : (!pyTruthy (extract_agent_id_val none r bd o.passport_from_body)
      && !dictTruthy (bodyDictVal o.passport_from_body bd "passport")) = false)
    (hpol : (!strTruthy o.policy_id
      && !dictTruthy (bodyDictVal o.policy_from_body bd "policy")) = false)
    (hdec : handleVerifyResponse t = .ok d)
    (hallow : decision_allow d = false) :
    (dispatch o r t).1
      = .reject (create_error_response 403 "policy_violation" "Policy violation" additional)
    ∧ jget additional "agent_id" = some eff
    ∧ jget additional "policy_id" = some polv
    ∧ jget additional "decision_id" = some d.decision_id
    ∧ jget additional "reasons" = some (reasonsOrEmpty d.reasons) := by
  subst heff hpolv hadd
  have hcore := dispatchCore_verify_path o r t bd hsk hobj hgate hpol
  constructor
  · show (match (dispatchCore o r t).result with
      | .ok out => out
      | .error (.aport e) => Outcome.reject (api_error_response e)
      | .error .other => Outcome.reject internal_error_response) = _
    rw [hcore]
    unfold decisionStep
    rw [hdec]
    simp only [hallow, Bool.not_false, if_true]
  · refine ⟨?_, ?_, ?_, ?_⟩ <;>
      simp [jget_dmerge, decision_meta, jget]

/-- Witness for C3: a concrete denied decision with a configured policy id
and no body policy. -/
theorem policy_violation_rejection_witness :
    (dispatch ⟨true, ["/health"], some "p1", true, true⟩
        ⟨"POST", "/x", [("x-agent-id", "abc")], .empty⟩
        (.response 200 (.val (.obj [("decision_id", .s "d2"), ("allow", .b false),
          ("reasons", .arr [])])) none)).1
      = .reject (create_error_response 403 "policy_violation" "Policy violation"
          [("agent_id", .s "abc"), ("policy_id", .s "p1"), ("decision_id", .s "d2"),
           ("reasons", .arr [])]) :=
  (policy_violation_rejection ⟨true, ["/health"], some "p1", true, true⟩
    ⟨"POST", "/x", [("x-agent-id", "abc")], .empty⟩
    (.response 200 (.val (.obj [("decision_id", .s "d2"), ("allow", .b false),
      ("reasons", .arr [])])) none) []
    { decision_id := .s "d2", allow := .b false, reasons := some (.arr []) }
    (.s "abc") (.s "p1") _ rfl rfl rfl rfl rfl rfl rfl rfl rfl).1

/-- Counterexample for C3 as stated: with a configured policy id p1 and an
applied body policy pack with id custom, the 403 payload reports p1, not the
body pack's id as the claim requires. -/
theorem policy_violation_policy_id_counterexample :
    dispatch ⟨true, ["/health"], some "p1", true, true⟩
        ⟨"POST", "/x", [], .val (.obj
          [("passport", .obj [("agent_id", .s "x")]),
           ("policy", .obj [("id", .s "custom"), ("requires_capabilities", .arr [])])])⟩
        (.response 200 (.val (.obj [("decision_id", .s "d9"), ("allow", .b false),
          ("reasons", .arr [])])) none)
      = (.reject ⟨403, "policy_violation", "Policy violation",
          [("agent_id", .s "x"), ("policy_id", .s "p1"), ("decision_id", .s "d9"),
           ("reasons", .arr [])]⟩,
         ⟨1, [.verifyInBody (some (.obj [("agent_id", .s "x")]))
              [("id", .s "custom"), ("requires_capabilities", .arr [])] []]⟩)
    ∧ JVal.s "p1" ≠ JVal.s "custom" := by
  refine ⟨rfl, ?_⟩
  intro h
  injection h with h2
  exact absurd h2 (by decide)

/-- C4 (amended): an allowed decision continues the request with state
carrying the resolved identity and the projection of the decision to
decision_id, allow and reasons (reasons preserved, the empty list when empty
or missing); the remaining decision fields (assurance level, expiry
metadata, ...) are not carried into the request state. -/
theorem allowed_decision_state
    (o : AgentPassportMiddlewareOptions) (r : Request) (t : TransportOutcome) (bd : JDict)
    (d : PolicyVerificationResponse) (eff : JVal)
    (heff : eff = optToJVal (effAgentOf (extract_agent_id_val none r bd o.passport_from_body)
      (bodyDictVal o.passport_from_body bd "passport")))
    (hsk : should_skip_request r o.skip_paths = false)
    (hobj : bodyJsonOf o r = .obj bd)
    (hgate : (!pyTruthy (extract_agent_id_val none r bd o.passport_from_body)
      && !dictTruthy (bodyDictVal o.passport_from_body bd "passport")) = false)
    (hpol : (!strTruthy o.policy_id
      && !dictTruthy (bodyDictVal o.policy_from_body bd "policy")) = false)
    (hdec : handleVerifyResponse t = .ok d)
    (hallow : decision_allow d = true) :
    (dispatch o r t).1
      = .next ⟨some (.obj [("agent_id", eff)]), some (policy_result_state d)⟩
    ∧ policy_result_state d
      = .obj [("decision_id", d.decision_id), ("allow", d.allow),
          ("reasons", reasonsOrEmpty d.reasons)]
    ∧ reasonsOrEmpty (some (.arr [])) = .arr []
    ∧ (∀ k, k ≠ "decision_id" → k ≠ "allow" → k ≠ "reasons" →
        jget [("decision_id", d.decision_id), ("allow", d.allow),
          ("reasons", reasonsOrEmpty d.reasons)] k = none) := by
  subst heff
  have hcore := dispatchCore_verify_path o r t bd hsk hobj hgate hpol
  refine ⟨?_, rfl, rfl, ?_⟩
  · show (match (dispatchCore o r t).result with
      | .ok out => out
      | .error (.aport e) => Outcome.reject (api_error_response e)
      | .error .other => Outcome.reject internal_error_response) = _
    rw [hcore]
    unfold decisionStep
    rw [hdec]
    simp only [hallow, Bool.not_true, Bool.false_eq_true, if_false]
  · intro k h1 h2 h3
    simp [jget, Ne.symm h1, Ne.symm h2, Ne.symm h3]

/-- Witness for C4 (amended): the spec scenario with header identity and an
allowed decision. -/
theorem allowed_decision_state_witness :
    (dispatch ⟨true, ["/health"], some "p1", true, true⟩
        ⟨"POST", "/x", [("x-agent-id", "abc")], .empty⟩
        (.response 200 (.val (.obj [("decision", .obj [("decision_id", .s "d1"),
          ("allow", .b true), ("reasons", .arr [])])])) none)).1
      = .next ⟨some (.obj [("agent_id", .s "abc")]),
          some (policy_result_state
            { decision_id := .s "d1"
              allow := .b true
              reasons := some (.arr []) })⟩ :=
  (allowed_decision_state ⟨true, ["/health"], some "p1", true, true⟩
    ⟨"POST", "/x", [("x-agent-id", "abc")], .empty⟩
    (.response 200 (.val (.obj [("decision", .obj [("decision_id", .s "d1"),
      ("allow", .b true), ("reasons", .arr [])])])) none) []
    { decision_id := .s "d1", allow := .b true, reasons := some (.arr []) }
    (.s "abc") rfl rfl rfl rfl rfl rfl rfl).1

/-- Counterexample for C4 as stated: the remote decision carries
assurance_level L2, yet the request state policy_result holds only
decision_id, allow and reasons, with no assurance_level entry — the state
does not carry the full decision payload. -/
theorem allowed_decision_drops_metadata_counterexample :
    handleVerifyResponse (.response 200 (.val (.obj [("decision", .obj
        [("decision_id", .s "d1"), ("allow", .b true), ("reasons", .arr []),
         ("assurance_level", .s "L2")])])) none)
      = .ok { decision_id := .s "d1"
              allow := .b true
              reasons := some (.arr [])
              assurance_level := some (.s "L2") }
    ∧ (dispatch ⟨true, ["/health"], some "p1", true, true⟩
        ⟨"POST", "/x", [("x-agent-id", "abc")], .empty⟩
        (.response 200 (.val (.obj [("decision", .obj
          [("decision_id", .s "d1"), ("allow", .b true), ("reasons", .arr []),
           ("assurance_level", .s "L2")])])) none)).1
      = .next ⟨some (.obj [("agent_id", .s "abc")]),
          some (.obj [("decision_id", .s "d1"), ("allow", .b true), ("reasons", .arr [])])⟩
    ∧ jget [("decision_id", JVal.s "d1"), ("allow", .b true), ("reasons", .arr [])]
        "assurance_level" = none :=
  ⟨rfl, rfl, rfl⟩

/-- C1 (amended): for every request that does not match a skip path and
whose parsed body is a mapping (any non-POST or unread body parses to the
empty mapping), lacking both a resolvable agent identity and a truthy body
passport: with fail_closed the pipeline rejects 401 missing_agent_id; with
fail-open it continues the request unmodified; either way no client
operation is invoked and no request state is set. -/
theorem missing_identity_gate
    (o : AgentPassportMiddlewareOptions) (r : Request) (t : TransportOutcome) (bd : JDict)
    (hsk : should_skip_request r o.skip_paths = false)
    (hobj : bodyJsonOf o r = .obj bd)
    (hid : pyTruthy (extract_agent_id_val none r bd o.passport_from_body) = false)
    (hpass : dictTruthy (bodyDictVal o.passport_from_body bd "passport") = false) :
    (o.fail_closed = true →
      dispatch o r t = (.reject (create_error_response 401 "missing_agent_id"
        "Agent ID is required. Provide X-Agent-Passport-Id header or body.passport." []),
        ⟨if readsBody o r then 1 else 0, []⟩))
    ∧ (o.fail_closed = false →
      dispatch o r t = (.next ⟨none, none⟩, ⟨if readsBody o r then 1 else 0, []⟩)) := by
  have hcore : dispatchCore o r t
      = (if o.fail_closed then
          ⟨.ok (.reject (create_error_response 401 "missing_agent_id"
            "Agent ID is required. Provide X-Agent-Passport-Id header or body.passport." [])), []⟩
        else ⟨.ok (.next ⟨none, none⟩), []⟩) := by
    unfold dispatchCore
    rw [hobj]
    simp only [hsk, Bool.false_eq_true, if_false, bodyGetDict_obj, extract_agent_id_obj,
      hid, hpass, Bool.not_false, Bool.and_self, if_true]
  constructor <;> intro hfc <;>
    simp only [dispatch, hcore, hfc, Bool.false_eq_true, if_true, if_false, hsk,
      Bool.not_false, Bool.true_and]

/-- Witness for C1 (amended): a concrete identity-less request under
fail_closed. -/
theorem missing_identity_gate_witness :
    dispatch ⟨true, ["/health"], none, true, true⟩ ⟨"POST", "/x", [], .empty⟩ .timeout
      = (.reject (create_error_response 401 "missing_agent_id"
          "Agent ID is required. Provide X-Agent-Passport-Id header or body.passport." []),
         ⟨1, []⟩) :=
  (missing_identity_gate ⟨true, ["/health"], none, true, true⟩ ⟨"POST", "/x", [], .empty⟩
    .timeout [] rfl rfl rfl rfl).1 rfl

/-- Counterexample for C1 as stated: a POST whose body is valid JSON but not
a mapping (here the array [1]) lacks both identity and passport, yet under
fail_closed the pipeline returns 500 internal_error (the body_json.get call
raises AttributeError), not the 401 missing_agent_id the claim requires; and
under fail-open the same request is not continued either. -/
theorem missing_identity_counterexample :
    dispatch ⟨true, ["/health"], none, true, true⟩
        ⟨"POST", "/x", [], .val (.arr [.i 1])⟩ .timeout
      = (.reject (create_error_response 500 "internal_error" "Internal server error" []),
         ⟨1, []⟩)
    ∧ dispatch ⟨false, ["/health"], none, true, true⟩
        ⟨"POST", "/x", [], .val (.arr [.i 1])⟩ .timeout
      = (.reject (create_error_response 500 "internal_error" "Internal server error" []),
         ⟨1, []⟩)
    ∧ (500 : Int) ≠ 401 := ⟨rfl, rfl, by decide⟩

/-- C5 (amended): dispatch reads the request body exactly once when the
request is not skipped, the method is POST, and a policy id is configured or
a from-body source is enabled; otherwise it reads the body zero times (in
particular never for other body-carrying methods such as PUT); an empty or
unparsable body parses to the empty mapping, and the run then behaves
exactly as if the body were the empty mapping, raising nothing. -/
theorem body_read_contract :
    (∀ (o : AgentPassportMiddlewareOptions) (r : Request) (t : TransportOutcome),
      (dispatch o r t).2.bodyReads
        = if !should_skip_request r o.skip_paths && readsBody o r then 1 else 0)
    ∧ parseBody .empty = .obj []
    ∧ parseBody .invalid = .obj []
    ∧ (∀ (o : AgentPassportMiddlewareOptions) (m p : String)
        (hs : List (String × String)) (t : TransportOutcome),
      dispatch o ⟨m, p, hs, .empty⟩ t = dispatch o ⟨m, p, hs, .val (.obj [])⟩ t
      ∧ dispatch o ⟨m, p, hs, .invalid⟩ t = dispatch o ⟨m, p, hs, .val (.obj [])⟩ t) := by
  exact ⟨fun o r t => rfl, rfl, rfl, fun o m p hs t => ⟨rfl, rfl⟩⟩

/-- Counterexample for C5 as stated: a PUT request (a state-changing method
that may carry a body) is never read by the pipeline — zero reads, not
exactly one; its body passport is ignored. -/
theorem body_read_put_counterexample :
    (dispatch ⟨true, ["/health"], some "p1", true, true⟩
        ⟨"PUT", "/x", [("x-agent-id", "a")], .val (.obj [("k", .i 1)])⟩ .timeout).2.bodyReads
      = 0
    ∧ (0 : Nat) ≠ 1 := ⟨rfl, by decide⟩

theorem payloadOf_error (dd : JDict) (e : PyExc) (h : payloadOf dd = .error e) :
    e = .other := by
  unfold payloadOf at h
  split at h <;> simp_all

theorem pvrOfPayload_not_aport (payload : JDict) (e : AportError) :
    pvrOfPayload payload ≠ .error (.aport e) := by
  intro h
  unfold pvrOfPayload at h
  split at h <;> simp at h

theorem from_api_response_not_aport (v : JVal) (e : AportError) :
    from_api_response v ≠ .error (.aport e) := by
  intro h
  cases v
  case obj dd =>
    cases hp : payloadOf dd with
    | error e' =>
      have he' := payloadOf_error dd e' hp
      subst he'
      simp [from_api_response, hp] at h
    | ok p =>
      simp only [from_api_response, hp] at h
      exact pvrOfPayload_not_aport _ e h
  all_goals simp [from_api_response] at h

theorem make_request_aport_status (t : TransportOutcome) (e : AportError)
    (h : make_request t = .error (.aport e)) :
    e.status = 0 ∨ e.status = 408 ∨ upstreamStatus t = some e.status := by
  cases t with
  | connError m =>
    simp only [make_request, Except.error.injEq, PyExc.aport.injEq] at h
    subst h
    exact Or.inl rfl
  | timeout =>
    simp only [make_request, Except.error.injEq, PyExc.aport.injEq] at h
    subst h
    exact Or.inr (Or.inl rfl)
  | response s b st =>
    simp only [make_request] at h
    split at h
    · split at h
      · simp only [Except.error.injEq, PyExc.aport.injEq] at h
        subst h
        exact Or.inr (Or.inr rfl)
      · simp at h
    · split at h
      · split at h <;> simp at h
      · simp at h

theorem handleVerifyResponse_aport_status (t : TransportOutcome) (e : AportError)
    (h : handleVerifyResponse t = .error (.aport e)) :
    e.status = 0 ∨ e.status = 408 ∨ upstreamStatus t = some e.status := by
  unfold handleVerifyResponse at h
  cases hm : make_request t with
  | error pe =>
    rw [hm] at h
    simp only [Except.bind, Except.error.injEq] at h
    subst h
    exact make_request_aport_status t e hm
  | ok v =>
    rw [hm] at h
    simp only [Except.bind] at h
    exact absurd h (from_api_response_not_aport v e)

theorem decisionStep_status (pid : Option String) (bpol : Option JDict) (eff : Option JVal)
    (tag : CallTag) (t : TransportOutcome) :
    (∀ resp, (decisionStep pid bpol eff tag (handleVerifyResponse t)).result
        = .ok (.reject resp) → resp.status = 403)
    ∧ (∀ e, (decisionStep pid bpol eff tag (handleVerifyResponse t)).result
        = .error (.aport e) →
        e.status = 0 ∨ e.status = 408 ∨ upstreamStatus t = some e.status) := by
  constructor <;> intro x h
  · cases hres : handleVerifyResponse t with
    | error e' =>
      rw [hres] at h
      simp [decisionStep] at h
    | ok d =>
      rw [hres] at h
      by_cases hal : decision_allow d
      · simp [decisionStep, hal] at h
      · simp only [decisionStep, hal, Bool.not_false, if_true, Except.ok.injEq,
          Outcome.reject.injEq] at h
        rw [← h]
        rfl
  · cases hres : handleVerifyResponse t with
    | error e' =>
      rw [hres] at h
      simp only [decisionStep, Except.error.injEq] at h
      subst h
      exact handleVerifyResponse_aport_status t x hres
    | ok d =>
      rw [hres] at h
      by_cases hal : decision_allow d <;> simp [decisionStep, hal] at h

theorem bodyGetDict_error (flag : Bool) (b : JVal) (k : String) (e : PyExc)
    (h : bodyGetDict flag b k = .error e) : e = .other := by
  unfold bodyGetDict at h
  iterate 4 (all_goals (try split at h))
  all_goals simp_all

theorem extract_agent_id_error (p : Option JVal) (r : Request) (b : JVal) (pfb : Bool)
    (e : PyExc) (h : extract_agent_id p r b pfb = .error e) : e = .other := by
  unfold extract_agent_id at h
  iterate 6 (all_goals (try split at h))
  all_goals simp_all [ite_eq_iff]

theorem dispatchCore_status (o : AgentPassportMiddlewareOptions) (r : Request)
    (t : TransportOutcome) :
    (∀ resp, (dispatchCore o r t).result = .ok (.reject resp) →
        resp.status = 401 ∨ resp.status = 403 ∨ resp.status = 0 ∨ resp.status = 408
        ∨ upstreamStatus t = some resp.status)
    ∧ (∀ e, (dispatchCore o r t).result = .error (.aport e) →
        e.status = 0 ∨ e.status = 408 ∨ upstreamStatus t = some e.status) := by
  constructor <;> intro x h <;> unfold dispatchCore at h
  · by_cases hsk : should_skip_request r o.skip_paths = true
    · rw [if_pos hsk] at h
      simp at h
    · rw [if_neg hsk] at h
      cases hbp : bodyGetDict o.passport_from_body (bodyJsonOf o r) "passport" with
      | error e1 =>
        simp only [hbp] at h
        simp at h
      | ok body_passport =>
        simp only [hbp] at h
        cases hbpol : bodyGetDict o.policy_from_body (bodyJsonOf o r) "policy" with
        | error e1 =>
          simp only [hbpol] at h
          simp at h
        | ok body_policy =>
          simp only [hbpol] at h
          cases hag : extract_agent_id none r (bodyJsonOf o r) o.passport_from_body with
          | error e1 =>
            simp only [hag] at h
            simp at h
          | ok agent_id =>
            simp only [hag] at h
            by_cases hgate : (!pyTruthy agent_id && !dictTruthy body_passport) = true
            · rw [if_pos hgate] at h
              by_cases hfc : o.fail_closed = true
              · rw [if_pos hfc] at h
                injection h with h2
                injection h2 with h3
                rw [← h3]
                exact Or.inl rfl
              · rw [if_neg hfc] at h
                simp at h
            · rw [if_neg hgate] at h
              by_cases hnp : (!strTruthy o.policy_id && !dictTruthy body_policy) = true
              · rw [if_pos hnp] at h
                by_cases hbpt : dictTruthy body_passport = true
                · rw [if_pos hbpt] at h
                  simp at h
                · rw [if_neg hbpt] at h
                  cases hm : make_request t with
                  | ok v =>
                    simp only [hm] at h
                    cases v <;> simp at h
                  | error pe =>
                    simp only [hm] at h
                    cases pe with
                    | other => simp at h
                    | aport e' =>
                      simp only [] at h
                      injection h with h2
                      injection h2 with h3
                      rw [← h3]
                      rcases make_request_aport_status t e' hm with h4 | h4 | h4
                      · exact Or.inr (Or.inr (Or.inl h4))
                      · exact Or.inr (Or.inr (Or.inr (Or.inl h4)))
                      · exact Or.inr (Or.inr (Or.inr (Or.inr h4)))
              · rw [if_neg hnp] at h
                cases hbj : bodyJsonOf o r <;> simp only [hbj] at h <;> try simp at h
                rename_i bd
                · by_cases h1 : dictTruthy body_policy = true
                  · rw [if_pos h1] at h
                    exact Or.inr (Or.inl ((decisionStep_status _ _ _ _ t).1 x h))
                  · rw [if_neg h1] at h
                    by_cases h2 : dictTruthy body_passport = true
                    · rw [if_pos h2] at h
                      exact Or.inr (Or.inl ((decisionStep_status _ _ _ _ t).1 x h))
                    · rw [if_neg h2] at h
                      exact Or.inr (Or.inl ((decisionStep_status _ _ _ _ t).1 x h))
  · by_cases hsk : should_skip_request r o.skip_paths = true
    · rw [if_pos hsk] at h
      simp at h
    · rw [if_neg hsk] at h
      cases hbp : bodyGetDict o.passport_from_body (bodyJsonOf o r) "passport" with
      | error e1 =>
        have he1 := bodyGetDict_error _ _ _ _ hbp
        subst he1
        simp only [hbp] at h
        simp at h
      | ok body_passport =>
        simp only [hbp] at h
        cases hbpol : bodyGetDict o.policy_from_body (bodyJsonOf o r) "policy" with
        | error e1 =>
          have he1 := bodyGetDict_error _ _ _ _ hbpol
          subst he1
          simp only [hbpol] at h
          simp at h
        | ok body_policy =>
          simp only [hbpol] at h
          cases hag : extract_agent_id none r (bodyJsonOf o r) o.passport_from_body with
          | error e1 =>
            have he1 := extract_agent_id_error _ _ _ _ _ hag
            subst he1
            simp only [hag] at h
            simp at h
          | ok agent_id =>
            simp only [hag] at h
            by_cases hgate : (!pyTruthy agent_id && !dictTruthy body_passport) = true
            · rw [if_pos hgate] at h
              by_cases hfc : o.fail_closed = true
              · rw [if_pos hfc] at h
                simp at h
              · rw [if_neg hfc] at h
                simp at h
            · rw [if_neg hgate] at h
              by_cases hnp : (!strTruthy o.policy_id && !dictTruthy body_policy) = true
              · rw [if_pos hnp] at h
                by_cases hbpt : dictTruthy body_passport = true
                · rw [if_pos hbpt] at h
                  simp at h
                · rw [if_neg hbpt] at h
                  cases hm : make_request t with
                  | ok v =>
                    simp only [hm] at h
                    cases v <;> simp at h
                  | error pe =>
                    simp only [hm] at h
                    cases pe <;> simp at h
              · rw [if_neg hnp] at h
                cases hbj : bodyJsonOf o r <;> simp only [hbj] at h <;> try simp at h
                rename_i bd
                · by_cases h1 : dictTruthy body_policy = true
                  · rw [if_pos h1] at h
                    exact (decisionStep_status _ _ _ _ t).2 x h
                  · rw [if_neg h1] at h
                    by_cases h2 : dictTruthy body_passport = true
                    · rw [if_pos h2] at h
                      exact (decisionStep_status _ _ _ _ t).2 x h
                    · rw [if_neg h2] at h
                      exact (decisionStep_status _ _ _ _ t).2 x h

/-- C8 (amended): every rejection the pipeline produces carries status 401
(missing identity), 403 (policy violation), 500 (internal error), the
upstream-reported status (api_error / agent_verification_failed from an HTTP
error response), or one of the two synthetic transport statuses: 408 for a
timeout and 0 for a connection error (the latter two carry no upstream
status). -/
theorem rejection_status_inventory :
    ∀ (o : AgentPassportMiddlewareOptions) (r : Request) (t : TransportOutcome)
      (resp : ErrorResponse),
      (dispatch o r t).1 = .reject resp →
      resp.status = 401 ∨ resp.status = 403 ∨ resp.status = 500 ∨ resp.status = 0
      ∨ resp.status = 408 ∨ upstreamStatus t = some resp.status := by
  intro o r t resp h
  unfold dispatch at h
  cases hc : (dispatchCore o r t).result with
  | ok out =>
    simp only [hc] at h
    subst h
    rcases (dispatchCore_status o r t).1 resp hc with h4 | h4 | h4 | h4 | h4
    · exact Or.inl h4
    · exact Or.inr (Or.inl h4)
    · exact Or.inr (Or.inr (Or.inr (Or.inl h4)))
    · exact Or.inr (Or.inr (Or.inr (Or.inr (Or.inl h4))))
    · exact Or.inr (Or.inr (Or.inr (Or.inr (Or.inr h4))))
  | error pe =>
    cases pe with
    | other =>
      simp only [hc] at h
      simp only [Outcome.reject.injEq] at h
      subst h
      exact Or.inr (Or.inr (Or.inl rfl))
    | aport e =>
      simp only [hc] at h
      simp only [Outcome.reject.injEq] at h
      subst h
      rcases (dispatchCore_status o r t).2 e hc with h4 | h4 | h4
      · exact Or.inr (Or.inr (Or.inr (Or.inl h4)))
      · exact Or.inr (Or.inr (Or.inr (Or.inr (Or.inl h4))))
      · exact Or.inr (Or.inr (Or.inr (Or.inr (Or.inr h4))))

/-- Witness for C8 (amended): a concrete 401 rejection is in the inventory. -/
theorem rejection_status_inventory_witness :
    (401 : Int) = 401 ∨ (401 : Int) = 403 ∨ (401 : Int) = 500 ∨ (401 : Int) = 0
    ∨ (401 : Int) = 408 ∨ upstreamStatus .timeout = some 401 :=
  rejection_status_inventory ⟨true, ["/health"], none, true, true⟩
    ⟨"POST", "/x", [], .empty⟩ .timeout
    (create_error_response 401 "missing_agent_id"
      "Agent ID is required. Provide X-Agent-Passport-Id header or body.passport." []) rfl

/-- Counterexample for C8 as stated: a connection error on the verification
path is rejected as api_error with HTTP status 0, which is none of 401, 403,
500, and is not an upstream-reported status (the transport produced no
upstream response at all). -/
theorem rejection_status_counterexample :
    (dispatch ⟨true, ["/health"], some "p1", true, true⟩
        ⟨"POST", "/x", [("x-agent-id", "abc")], .empty⟩ (.connError "down")).1
      = .reject (api_error_response
          { status := 0
            reasons := some (.arr [.obj [("code", .s "NETWORK_ERROR"), ("message", .s "down")]]) })
    ∧ (api_error_response
        { status := 0
          reasons := some (.arr [.obj [("code", .s "NETWORK_ERROR"), ("message", .s "down")]]) }).status = 0
    ∧ upstreamStatus (.connError "down") = none
    ∧ ((0 : Int) ≠ 401 ∧ (0 : Int) ≠ 403 ∧ (0 : Int) ≠ 500) :=
  ⟨rfl, rfl, rfl, by decide⟩

/-- C9: in require_policy_with_context, whenever the identity gate passes (so
a client operation runs), the verification context supplied to the selected
operation equals the parsed request body with the passport and policy entries
removed, merged with the caller-supplied override context, and for every key
the merged value is the override value when the override binds the key, else
the body value (passport and policy excluded). -/
theorem verification_context_merge :
    ∀ (policy_id : String) (context : JDict) (agent_id : Option String) (r : Request)
      (t : TransportOutcome) (bd : JDict),
      (if r.method == "POST" then parseBody r.rawBody else .obj []) = .obj bd →
      (!pyTruthy (extract_agent_id_val (agent_id.map .s) r bd true)
        && !dictTruthy (bodyDictVal true bd "passport")) = false →
      (require_policy_with_context policy_id context agent_id r t).2.calls
        = [verifyTagOf (some policy_id) (bodyDictVal true bd "passport")
            (bodyDictVal true bd "policy")
            (effAgentOf (extract_agent_id_val (agent_id.map .s) r bd true)
              (bodyDictVal true bd "passport"))
            (dmerge (dropPassportPolicy bd) context)]
      ∧ (verifyTagOf (some policy_id) (bodyDictVal true bd "passport")
          (bodyDictVal true bd "policy")
          (effAgentOf (extract_agent_id_val (agent_id.map .s) r bd true)
            (bodyDictVal true bd "passport"))
          (dmerge (dropPassportPolicy bd) context)).contextOf
        = some (dmerge (dropPassportPolicy bd) context)
      ∧ (∀ k, jget (dmerge (dropPassportPolicy bd) context) k
          = (jget context k <|> (if k = "passport" || k = "policy" then none else jget bd k))) := by
  intro policy_id context agent_id r t bd hobj hgate
  refine ⟨?_, ?_, ?_⟩
  · have hcore := rpwcCore_verify_path policy_id context agent_id r t bd hobj hgate
    show (require_policy_with_context_core policy_id context agent_id r t).calls = _
    rw [hcore, rpwcDecision_calls]
  · unfold verifyTagOf
    by_cases h1 : dictTruthy (bodyDictVal true bd "policy") <;>
      by_cases h2 : dictTruthy (bodyDictVal true bd "passport") <;>
      simp [h1, h2, CallTag.contextOf]
  · intro k
    rw [jget_dmerge, jget_dropPassportPolicy]

/-- Witness for C9: a concrete POST body with an amount field, a passport,
and an override context; the merged context keeps the body amount and gains
the override limit. -/
theorem verification_context_merge_witness :
    (require_policy_with_context "p1" [("limit", .i 5)] none
        ⟨"POST", "/x", [], .val (.obj [("amount", .i 3),
          ("passport", .obj [("agent_id", .s "x")])])⟩ .timeout).2.calls
      = [CallTag.verifyWithPassport [("agent_id", .s "x")] (some "p1")
          [("amount", .i 3), ("limit", .i 5)]]
    ∧ jget (dmerge (dropPassportPolicy [("amount", .i 3),
        ("passport", .obj [("agent_id", .s "x")])]) [("limit", .i 5)]) "amount"
      = some (.i 3) := by
  have h := verification_context_merge "p1" [("limit", .i 5)] none
    ⟨"POST", "/x", [], .val (.obj [("amount", .i 3),
      ("passport", .obj [("agent_id", .s "x")])])⟩ .timeout
    [("amount", .i 3), ("passport", .obj [("agent_id", .s "x")])] rfl rfl
  exact ⟨h.1, h.2.2 "amount"⟩

end Aport
